import Mathlib

/-!
Shallow embedding of `plugins/modules/block_device.py` from the
`canonical.maas` Ansible collection: the declarative convergence engine for a
machine's block devices (create / update / delete paths, partition
sub-lifecycle, diff engine, tag handling).

Python dictionaries whose insertion order matters are modelled as association
lists (`Dict`); Python truthiness of optional parameters is modelled by the
`truthy*` helpers; the mutating remote calls issued through the REST client
are modelled as a trace of `Call` events; reads from the remote service
(`get_by_name`, `block_device.get`) are supplied by an environment `Env`.
A Python runtime failure (such as a `TypeError` from a call with the wrong
number of arguments) is modelled by `Except PyErr`.
-/

/-- A Python value stored in a request payload dictionary. -/
inductive Value where
  | s (v : String)
  | i (v : Int)
  | b (v : Bool)
  | null
deriving DecidableEq, Repr

/-- A Python dict used as a request payload: an insertion-ordered association
list with string keys. -/
abbrev Dict := List (String × Value)

/-- Assignment `d[k] = v` on a Python dict: overwrites in place if the key is
present, appends otherwise. -/
def setKey (d : Dict) (k : String) (v : Value) : Dict :=
  if (d.map Prod.fst).contains k then
    d.map (fun kv => if kv.1 = k then (k, v) else kv)
  else
    d ++ [(k, v)]

/-- Python truthiness of an optional string parameter (None and "" are falsy). -/
def truthyStr : Option String → Bool
  | none => false
  | some s => s ≠ ""

/-- Python truthiness of an optional int parameter (None and 0 are falsy). -/
def truthyInt : Option Int → Bool
  | none => false
  | some n => n ≠ 0

/-- Python truthiness of an optional bool parameter (None and False are falsy). -/
def truthyBool : Option Bool → Bool
  | none => false
  | some b => b

/-- Python truthiness of an optional list parameter (None and [] are falsy). -/
def truthyList {α : Type} : Option (List α) → Bool
  | none => false
  | some l => !l.isEmpty

/-- Value of an optional string parameter as stored into a payload dict. -/
def optStr : Option String → Value
  | none => Value.null
  | some s => Value.s s

/-- Value of an optional int parameter as stored into a payload dict. -/
def optInt : Option Int → Value
  | none => Value.null
  | some n => Value.i n

/-- Value of an optional bool parameter as stored into a payload dict. -/
def optBool : Option Bool → Value
  | none => Value.null
  | some b => Value.b b

/-- The validated `state` module parameter (`choices: [present, absent]`;
the surrounding argument-spec layer rejects anything else). -/
inductive StateParam where
  | present
  | absent
deriving DecidableEq, Repr

/-- One entry of the `partitions` module parameter (sub-options per the
argument spec in `main`). -/
structure PartitionParams where
  size_gigabytes : Option Int
  bootable : Option Bool
  tags : Option (List String)
  fs_type : Option String
  label : Option String
  mount_point : Option String
  mount_options : Option String
deriving DecidableEq, Repr

/-- The module parameters relevant to the convergence engine
(`module.params`), as validated by the argument spec in `main`. -/
structure Params where
  state : StateParam
  machine_fqdn : String
  name : String
  new_name : Option String
  block_size : Option Int
  size_gigabytes : Option Int
  is_boot_device : Option Bool
  model : Option String
  serial : Option String
  id_path : Option String
  tags : Option (List String)
  partitions : Option (List PartitionParams)
deriving DecidableEq, Repr

/-- Client-side view of an existing block device, with the attributes the
module reads (`block_device.name`, `.model`, `.serial`, `.id_path`,
`.block_size`, `.size`, `.tags`, `.id`). -/
structure BlockDevice where
  id : Int
  name : String
  model : String
  serial : String
  id_path : String
  block_size : Int
  size : Int
  tags : List String
deriving DecidableEq, Repr

/-- Client-side view of the owning machine (`machine.id`, `machine.status`). -/
structure Machine where
  id : Int
  status : String
deriving DecidableEq, Repr

/-- Modelled from the spec: the constant `MachineTaskState.ready.value` lives
in the collection's `module_utils/state.py`, which is not part of the module
source; the spec states that the size/block_size gate compares the machine
status to "ready". -/
def MachineTaskState_ready_value : String := "ready"

/-- A mutating remote call issued through the client. Partition calls carry
the zero-based declaration index of the partition they act on, standing for
the fresh partition object returned by `Partition.create`; reads
(`get_by_name`, `block_device.get`) are not mutating and are supplied by
`Env` instead. -/
inductive Call where
  | deviceCreate (data : Dict)
  | deviceUpdate (data : Dict)
  | deviceDelete
  | deviceAddTag (tag : String)
  | setBootDisk
  | partitionCreate (idx : Nat) (data : Option Dict)
  | partitionFormat (idx : Nat) (data : Dict)
  | partitionMount (idx : Nat) (data : Dict)
  | partitionAddTag (idx : Nat) (tag : String)
deriving DecidableEq, Repr

/-- A Python runtime failure surfaced by the module run. -/
inductive PyErr where
  | typeError (msg : String)
  | notFound (msg : String)
deriving DecidableEq, Repr

/-- The `diff` component of the module result (`dict(before=..., after=...)`). -/
structure DiffRec where
  before : Dict
  after : Dict
deriving DecidableEq, Repr

/-- The module result `(changed, record, diff)`. -/
abbrev RunResult := Bool × Dict × DiffRec

/-- Responses of the remote service for the reads performed during one
invocation: the machine resolved by FQDN, the block device located by name
(if any), its snapshot, and the snapshot re-fetched after the mutations of
the create or update path. -/
structure Env where
  machine : Machine
  found : Option BlockDevice
  snapshot : Dict
  finalSnapshot : Dict
deriving DecidableEq, Repr

/-- Embeds `data_for_create_block_device` (block_device.py lines 200-213). -/
def data_for_create_block_device (module : Params) : Dict :=
  let data := setKey [] "name" (Value.s module.name)
  let data := setKey data "size" (optInt module.size_gigabytes)
  let data := setKey data "block_size" (Value.i 512)
  let data :=
    if truthyInt module.block_size then setKey data "block_size" (optInt module.block_size)
    else data
  let data :=
    if truthyStr module.model then setKey data "model" (optStr module.model) else data
  let data :=
    if truthyStr module.serial then setKey data "serial" (optStr module.serial) else data
  let data :=
    if truthyStr module.id_path then setKey data "id_path" (optStr module.id_path) else data
  data

/-- The dict constructed inside `data_for_create_partition` (block_device.py
lines 234-239): `size` when `size_gigabytes` is truthy, and the misspelled
key `bootalbe` when `bootable` is truthy. -/
def data_for_create_partition_body (partition : PartitionParams) : Dict :=
  let data : Dict := []
  let data :=
    if truthyInt partition.size_gigabytes then
      setKey data "size" (optInt partition.size_gigabytes)
    else data
  let data :=
    if truthyBool partition.bootable then setKey data "bootalbe" (optBool partition.bootable)
    else data
  data

/-- Embeds `data_for_create_partition` (block_device.py lines 234-239): the
function builds a local dict but contains no return statement, so control
falls off the end and the Python function returns `None`. -/
def data_for_create_partition (partition : PartitionParams) : Option Dict :=
  let _data := data_for_create_partition_body partition
  none

/-- The payload of the format call for one partition declaration
(block_device.py lines 249-252): `fstype`, plus `label` when truthy. -/
def formatData (partition : PartitionParams) : Dict :=
  let data := setKey [] "fstype" (optStr partition.fs_type)
  if truthyStr partition.label then setKey data "label" (optStr partition.label) else data

/-- The payload of the mount call for one partition declaration
(block_device.py lines 257-260): `mount_point`, plus `mount_options` when
truthy. -/
def mountData (partition : PartitionParams) : Dict :=
  let data := setKey [] "mount_point" (optStr partition.mount_point)
  if truthyStr partition.mount_options then
    setKey data "mount_options" (optStr partition.mount_options)
  else data

/-- The calls issued by one iteration of the loop in `create_partition`
(block_device.py lines 243-264) for the partition declared at index `idx`:
create, then (if `fs_type` is truthy) format, then (if additionally
`mount_point` is truthy) mount, then one add-tag call per declared tag. -/
def partition_steps (idx : Nat) (partition : PartitionParams) : List Call :=
  [Call.partitionCreate idx (data_for_create_partition partition)]
    ++ (if truthyStr partition.fs_type then
          [Call.partitionFormat idx (formatData partition)]
            ++ (if truthyStr partition.mount_point then
                  [Call.partitionMount idx (mountData partition)]
                else [])
        else [])
    ++ (if truthyList partition.tags then
          (partition.tags.getD []).map (Call.partitionAddTag idx)
        else [])

/-- The loop of `create_partition` over the declared partitions, carrying the
zero-based declaration index. -/
def create_partition_go (idx : Nat) : List PartitionParams → List Call
  | [] => []
  | partition :: rest => partition_steps idx partition ++ create_partition_go (idx + 1) rest

/-- Embeds `create_partition` (block_device.py lines 242-264): iterates over
`module.params["partitions"]` in declaration order. -/
def create_partition (module : Params) : List Call :=
  create_partition_go 0 (module.partitions.getD [])

/-- Embeds `create_block_device` (block_device.py lines 216-231): create the
device, then (if declared) the partitions, then the device tags, then the
boot-disk assignment; returns `changed = True` with `before = {}` and
`after` the re-fetched snapshot. -/
def create_block_device (module : Params) (env : Env) : List Call × RunResult :=
  let calls := [Call.deviceCreate (data_for_create_block_device module)]
  let calls :=
    calls ++ (if truthyList module.partitions then create_partition module else [])
  let calls :=
    calls ++ (if truthyList module.tags then
                (module.tags.getD []).map Call.deviceAddTag
              else [])
  let calls := calls ++ (if truthyBool module.is_boot_device then [Call.setBootDisk] else [])
  (calls, (true, env.finalSnapshot, { before := [], after := env.finalSnapshot }))

/-- One field of the update diff: if the module parameter is truthy and the
actual value differs from the desired one, store the desired value under `k`
(the repeated `if module.params[...]: if block_device.x != module.params[...]:
data[k] = module.params[...]` pattern of lines 274-292). -/
def diffStep (declared : Bool) (differs : Prop) [Decidable differs] (d : Dict)
    (k : String) (v : Value) : Dict :=
  if declared then (if differs then setKey d k v else d) else d

/-- Embeds `data_for_update_block_device` (block_device.py lines 267-293):
the field diff of desired versus actual. `name`, `model`, `serial`, `id_path`
are diffed for any machine status; `block_size` and `size` only when the
machine status equals `MachineTaskState.ready.value`. The source signature
also takes the client, which the body never uses. -/
def data_for_update_block_device (module : Params) (block_device : BlockDevice)
    (machine : Machine) : Dict :=
  let data : Dict := []
  let data := diffStep (truthyStr module.new_name)
    (block_device.name ≠ module.new_name.getD "") data "name" (optStr module.new_name)
  let data := diffStep (truthyStr module.model)
    (block_device.model ≠ module.model.getD "") data "model" (optStr module.model)
  let data := diffStep (truthyStr module.serial)
    (block_device.serial ≠ module.serial.getD "") data "serial" (optStr module.serial)
  let data := diffStep (truthyStr module.id_path)
    (block_device.id_path ≠ module.id_path.getD "") data "id_path" (optStr module.id_path)
  if machine.status = MachineTaskState_ready_value then
    let data := diffStep (truthyInt module.block_size)
      (block_device.block_size ≠ module.block_size.getD 0) data "block_size"
      (optInt module.block_size)
    let data := diffStep (truthyInt module.size_gigabytes)
      (block_device.size ≠ module.size_gigabytes.getD 0) data "size"
      (optInt module.size_gigabytes)
    data
  else data

/-- Embeds `update_block_device` (block_device.py lines 296-326). After
locating the device (`must_exist=True`) and fetching its snapshot, the source
executes `data = data_for_update_block_device(module, machine)` at line 305:
two arguments passed to a function of four positional parameters, so Python
raises `TypeError` there; the update call, the tag loop, the boot-disk call
and the changed-flag computation of lines 306-326 are unreachable. No
mutating call has been issued at the point of the failure. -/
def update_block_device (module : Params) (env : Env) (machine : Machine) :
    List Call × Except PyErr RunResult :=
  match env.found with
  | none =>
      ([], Except.error (PyErr.notFound "No block device - name"))
  | some block_device =>
      let _block_device_maas_dict := env.snapshot
      let _ := block_device
      let _ := machine
      let _ := module
      ([], Except.error (PyErr.typeError
        "data_for_update_block_device() missing 2 required positional arguments"))

/-- Embeds `delete_block_device` (block_device.py lines 329-335): if a device
with the declared name exists, snapshot it, delete it and report
`changed = True` with `after = {}`; otherwise report `changed = False` with
empty before and after. The record component is `dict()` in both branches. -/
def delete_block_device (module : Params) (env : Env) : List Call × RunResult :=
  let _ := module
  match env.found with
  | some block_device =>
      let block_device_maas_dict := env.snapshot
      let _ := block_device
      ([Call.deviceDelete], (true, [], { before := block_device_maas_dict, after := [] }))
  | none =>
      ([], (false, [], { before := [], after := [] }))

/-- Embeds `run` (block_device.py lines 338-349): resolve the machine, branch
on `state` and on whether a block device with the declared name exists. -/
def run (module : Params) (env : Env) : List Call × Except PyErr RunResult :=
  let machine := env.machine
  match module.state with
  | StateParam.present =>
      match env.found with
      | some _ => update_block_device module env machine
      | none =>
          let res := create_block_device module env
          (res.1, Except.ok res.2)
  | StateParam.absent =>
      let res := delete_block_device module env
      (res.1, Except.ok res.2)

/-- The partition index and phase of a partition-related call (create 0,
format 1, mount 2, add-tag 3); `none` for device-level calls. -/
def callKey : Call → Option (Nat × Nat)
  | Call.partitionCreate i _ => some (i, 0)
  | Call.partitionFormat i _ => some (i, 1)
  | Call.partitionMount i _ => some (i, 2)
  | Call.partitionAddTag i _ => some (i, 3)
  | _ => none

/-- Whether a call acts on a partition. -/
def isPartitionCall (c : Call) : Bool := (callKey c).isSome

/-- Phase order on partition calls: an earlier partition index, or the same
partition with an earlier-or-equal phase. -/
def keyLE (a b : Nat × Nat) : Prop := a.1 < b.1 ∨ (a.1 = b.1 ∧ a.2 ≤ b.2)

/-! ### Concrete scenarios used as evidence and witnesses -/

/-- A machine whose status is "ready". -/
def readyMachine : Machine := ⟨1, "ready"⟩

/-- A machine whose status is "deployed" (not "ready"). -/
def deployedMachine : Machine := ⟨1, "deployed"⟩

/-- C1 scenario: existing device named vdb. -/
def c1_device : BlockDevice := ⟨73, "vdb", "fakemodel", "123", "/dev/vdb", 512, 27, []⟩

/-- C1 scenario: snapshot of the existing device. -/
def c1_snapshot : Dict := [("name", Value.s "vdb"), ("size", Value.i 27)]

/-- C1 scenario: declaration renaming vdb to vdc, so the field diff would be
non-empty. Fields: state, machine_fqdn, name, new_name, block_size,
size_gigabytes, is_boot_device, model, serial, id_path, tags, partitions. -/
def c1_module : Params :=
  ⟨StateParam.present, "m1.project", "vdb", some "vdc", none, some 27, none,
    none, none, none, none, none⟩

/-- C1 scenario: the device is found on a ready machine. -/
def c1_env : Env := ⟨readyMachine, some c1_device, c1_snapshot, c1_snapshot⟩

/-- C1: the claim says the update path computes the field diff and issues one
update call exactly when the diff is non-empty. On this scenario the diff of
desired versus actual is the non-empty map with name = vdc, yet the run
issues no call at all and fails with TypeError: line 305 of the source passes
two arguments to the four-parameter `data_for_update_block_device`. -/
theorem C1_update_path_type_error_before_update :
    data_for_update_block_device c1_module c1_device readyMachine =
      [("name", Value.s "vdc")] ∧
    run c1_module c1_env =
      ([], Except.error (PyErr.typeError
        "data_for_update_block_device() missing 2 required positional arguments")) :=
  ⟨by decide, rfl⟩

/-- C2 scenario: the partition declaration of the end-to-end example
(size_gigabytes 10, fs_type ext4, mount_point /media). Fields:
size_gigabytes, bootable, tags, fs_type, label, mount_point, mount_options. -/
def c2_partition : PartitionParams :=
  ⟨some 10, none, none, some "ext4", none, some "/media", none⟩

/-- C2 scenario: the end-to-end example declaration (state present, name vdb,
size 27, id_path /dev/vdb, one partition). -/
def c2_module : Params :=
  ⟨StateParam.present, "m1", "vdb", none, none, some 27, none,
    none, none, some "/dev/vdb", none, some [c2_partition]⟩

/-- C2 scenario: no device named vdb exists, so the create path runs. -/
def c2_env : Env := ⟨readyMachine, none, [], [("name", Value.s "vdb")]⟩

/-- C2: the claim says the partition-create payload is the mapping with only
the key size, {size: 10} for the example. The dict built inside
`data_for_create_partition` is indeed [("size", 10)], but the function has no
return statement, so it returns None and the partition-create call of the
end-to-end example carries None instead of {size: 10}. -/
theorem C2_partition_create_payload_is_none :
    data_for_create_partition_body c2_partition = [("size", Value.i 10)] ∧
    data_for_create_partition c2_partition = none ∧
    (run c2_module c2_env).1 =
      [Call.deviceCreate [("name", Value.s "vdb"), ("size", Value.i 27),
          ("block_size", Value.i 512), ("id_path", Value.s "/dev/vdb")],
        Call.partitionCreate 0 none,
        Call.partitionFormat 0 [("fstype", Value.s "ext4")],
        Call.partitionMount 0 [("mount_point", Value.s "/media")]] :=
  ⟨by decide, rfl, by decide⟩

/-- C4: on the absent path, when no device with the declared name exists the
run issues no mutating call and returns changed = false with empty before and
after; when the device exists, the trace is exactly one delete call and the
run returns changed = true with before equal to the snapshot and after = {}. -/
theorem C4_delete_path_no_op_or_delete (module : Params) (env : Env)
    (h : module.state = StateParam.absent) :
    run module env =
      ((if env.found.isSome then [Call.deviceDelete] else []),
        Except.ok (env.found.isSome, ([] : Dict),
          ⟨(if env.found.isSome then env.snapshot else []), []⟩)) := by
  cases hf : env.found <;> simp [run, h, delete_block_device, hf]

/-- C4 scenario: absent state, no device found. -/
def c4_module : Params :=
  ⟨StateParam.absent, "m1", "vdb", none, none, some 27, none,
    none, none, none, none, none⟩

/-- C4 scenario environment: lookup by name comes back empty. -/
def c4_env : Env := ⟨readyMachine, none, [], []⟩

/-- C4 witness: delete-of-absent issues no call and reports no change. -/
theorem C4_delete_path_no_op_or_delete_witness :
    run c4_module c4_env = ([], Except.ok (false, ([] : Dict), ⟨[], []⟩)) := by
  exact C4_delete_path_no_op_or_delete c4_module c4_env rfl

/-- C5 scenario: device whose state already matches the declaration. -/
def c5_device : BlockDevice := ⟨73, "vdb", "", "", "/dev/vdb", 512, 27, []⟩

/-- C5 scenario: snapshot of that device. -/
def c5_snapshot : Dict := [("name", Value.s "vdb")]

/-- C5 scenario: declaration equal to the actual state (an idempotent second
run), so the field diff is empty. -/
def c5_module : Params :=
  ⟨StateParam.present, "m1", "vdb", none, some 512, some 27, none,
    none, none, some "/dev/vdb", none, none⟩

/-- C5 scenario: the device is found on a ready machine. -/
def c5_env : Env := ⟨readyMachine, some c5_device, c5_snapshot, c5_snapshot⟩

/-- C5: the claim says the update path returns changed equal to the
structural inequality of the before and after snapshots, false on an
idempotent run. On this idempotent scenario the field diff is empty, yet the
run never returns a changed flag at all: it fails with TypeError at line 305
(`data_for_update_block_device` called with two of its four arguments) before
the comparison of lines 315-326 is reached. -/
theorem C5_update_path_never_returns_changed :
    data_for_update_block_device c5_module c5_device readyMachine = [] ∧
    (run c5_module c5_env).2 = Except.error (PyErr.typeError
      "data_for_update_block_device() missing 2 required positional arguments") :=
  ⟨by decide, rfl⟩

/-- C8 scenario: device carrying tags a and b. -/
def c8_device : BlockDevice := ⟨73, "vdb", "", "", "", 512, 27, ["a", "b"]⟩

/-- C8 scenario: snapshot of that device. -/
def c8_snapshot : Dict := [("name", Value.s "vdb")]

/-- C8 scenario: declaration with tags b and c on the update path. -/
def c8_module : Params :=
  ⟨StateParam.present, "m1", "vdb", none, none, some 27, none,
    none, none, none, some ["b", "c"], none⟩

/-- C8 scenario: the device is found on a ready machine. -/
def c8_env : Env := ⟨readyMachine, some c8_device, c8_snapshot, c8_snapshot⟩

/-- C8: the claim says that with actual tags {a, b} and desired tags {b, c}
exactly one tag-addition call (for c) is issued. On this scenario the run
issues no call at all: it fails with TypeError at line 305 before the tag
loop of lines 308-311 is reached, so not even the missing tag c is added. -/
theorem C8_no_tag_addition_call_issued :
    (run c8_module c8_env).1 = [] ∧
    (run c8_module c8_env).2 = Except.error (PyErr.typeError
      "data_for_update_block_device() missing 2 required positional arguments") :=
  ⟨rfl, rfl⟩

/-- C9: on the update path (state present, a device with the declared name
exists) no partition-related call is ever issued, whatever the declared
partitions are: the trace of the run contains no partition create, format,
mount, or partition-tag call. -/
theorem C9_update_path_issues_no_partition_call (module : Params) (env : Env)
    (bd : BlockDevice) (h1 : module.state = StateParam.present)
    (h2 : env.found = some bd) :
    ∀ c ∈ (run module env).1, isPartitionCall c = false := by
  intro c hc
  simp [run, h1, h2, update_block_device] at hc

/-- C9 scenario: a partition declaration that is declared but ignored. -/
def c9_partition : PartitionParams :=
  ⟨some 10, none, none, some "ext4", none, some "/media", none⟩

/-- C9 scenario: present state with a non-empty partitions list. -/
def c9_module : Params :=
  ⟨StateParam.present, "m1", "vdb", none, none, some 27, none,
    none, none, none, none, some [c9_partition]⟩

/-- C9 scenario: existing device named vdb. -/
def c9_device : BlockDevice := ⟨73, "vdb", "", "", "", 512, 27, []⟩

/-- C9 scenario: the device is found, so the update path runs. -/
def c9_env : Env := ⟨readyMachine, some c9_device, [], []⟩

/-- C9 witness: even with a declared partition, the update path issues no
partition-create call. -/
theorem C9_update_path_issues_no_partition_call_witness :
    Call.partitionCreate 0 none ∉ (run c9_module c9_env).1 := by
  intro hmem
  have hx := C9_update_path_issues_no_partition_call c9_module c9_env c9_device
    rfl rfl (Call.partitionCreate 0 none) hmem
  simp [isPartitionCall, callKey] at hx

/-- C10: on the absent path the record component of the result is the empty
mapping in both branches, and the snapshot of a deleted device appears only
as the before field of the diff. -/
theorem C10_absent_record_always_empty (module : Params) (env : Env)
    (h : module.state = StateParam.absent) :
    ((run module env).2.toOption.map (fun r => r.2.1)) = some ([] : Dict) ∧
    ((run module env).2.toOption.map (fun r => r.2.2.before)) =
      some (if env.found.isSome then env.snapshot else []) := by
  cases hf : env.found <;>
    simp [run, h, delete_block_device, hf, Except.toOption]

/-- C10 scenario: existing device named vdb. -/
def c10_device : BlockDevice := ⟨73, "vdb", "", "", "", 512, 27, []⟩

/-- C10 scenario: snapshot of that device. -/
def c10_snapshot : Dict := [("name", Value.s "vdb"), ("id", Value.i 73)]

/-- C10 scenario: absent state. -/
def c10_module : Params :=
  ⟨StateParam.absent, "m1", "vdb", none, none, some 27, none,
    none, none, none, none, none⟩

/-- C10 scenario: the device exists and is deleted. -/
def c10_env : Env := ⟨readyMachine, some c10_device, c10_snapshot, c10_snapshot⟩

/-- C10 witness: after deleting an existing device the record is {} while the
snapshot shows up as the diff before field. -/
theorem C10_absent_record_always_empty_witness :
    ((run c10_module c10_env).2.toOption.map (fun r => r.2.1)) = some ([] : Dict) ∧
    ((run c10_module c10_env).2.toOption.map (fun r => r.2.2.before)) =
      some c10_snapshot := by
  exact C10_absent_record_always_empty c10_module c10_env rfl

/-- An update-in-place of one dict entry never changes the key list. -/
lemma keys_map_update (d : Dict) (k : String) (v : Value) :
    (d.map (fun kv => if kv.1 = k then (k, v) else kv)).map Prod.fst =
      d.map Prod.fst := by
  induction d with
  | nil => rfl
  | cons hd tl ih =>
      by_cases h : hd.1 = k
      · simp [h, ih]
      · simp [h, ih]

/-- A key of `setKey d k v` is a key of `d` or is `k`. -/
lemma keys_setKey_subset {x k : String} {v : Value} {d : Dict}
    (h : x ∈ (setKey d k v).map Prod.fst) : x ∈ d.map Prod.fst ∨ x = k := by
  unfold setKey at h
  split_ifs at h with hc
  · rw [keys_map_update] at h
    exact Or.inl h
  · rw [List.map_append] at h
    rcases List.mem_append.mp h with h1 | h1
    · exact Or.inl h1
    · right
      simpa using h1

/-- A key of a diff step is a key of the accumulator or is the step key. -/
lemma keys_diffStep_subset {x : String} {c : Bool} {p : Prop} [Decidable p]
    {d : Dict} {k : String} {v : Value}
    (h : x ∈ (diffStep c p d k v).map Prod.fst) : x ∈ d.map Prod.fst ∨ x = k := by
  unfold diffStep at h
  split_ifs at h
  · exact keys_setKey_subset h
  · exact Or.inl h
  · exact Or.inl h

/-- A key of the identity part of the update diff (the first four steps of
`data_for_update_block_device`) is one of name, model, serial, id_path. -/
lemma keys_identity_diff {x : String} {module : Params}
    {block_device : BlockDevice}
    (h : x ∈ (diffStep (truthyStr module.id_path)
        (block_device.id_path ≠ module.id_path.getD "")
        (diffStep (truthyStr module.serial)
          (block_device.serial ≠ module.serial.getD "")
          (diffStep (truthyStr module.model)
            (block_device.model ≠ module.model.getD "")
            (diffStep (truthyStr module.new_name)
              (block_device.name ≠ module.new_name.getD "")
              [] "name" (optStr module.new_name))
            "model" (optStr module.model))
          "serial" (optStr module.serial))
        "id_path" (optStr module.id_path)).map Prod.fst) :
    x = "name" ∨ x = "model" ∨ x = "serial" ∨ x = "id_path" := by
  rcases keys_diffStep_subset h with h1 | h1
  · rcases keys_diffStep_subset h1 with h2 | h2
    · rcases keys_diffStep_subset h2 with h3 | h3
      · rcases keys_diffStep_subset h3 with h4 | h4
        · simp at h4
        · exact Or.inl h4
      · exact Or.inr (Or.inl h3)
    · exact Or.inr (Or.inr (Or.inl h2))
  · exact Or.inr (Or.inr (Or.inr h1))

/-- C3: for a machine whose status is not "ready", the update-path diff map
never contains the keys size or block_size, whatever the declared and actual
values are; the identity fields name, model, serial, id_path remain the only
diffable keys in that case. -/
theorem C3_size_keys_require_ready_status (module : Params)
    (block_device : BlockDevice) (machine : Machine)
    (h : machine.status ≠ MachineTaskState_ready_value) :
    "size" ∉ (data_for_update_block_device module block_device machine).map
      Prod.fst ∧
    "block_size" ∉ (data_for_update_block_device module block_device
      machine).map Prod.fst := by
  have hred : data_for_update_block_device module block_device machine =
      diffStep (truthyStr module.id_path)
        (block_device.id_path ≠ module.id_path.getD "")
        (diffStep (truthyStr module.serial)
          (block_device.serial ≠ module.serial.getD "")
          (diffStep (truthyStr module.model)
            (block_device.model ≠ module.model.getD "")
            (diffStep (truthyStr module.new_name)
              (block_device.name ≠ module.new_name.getD "")
              [] "name" (optStr module.new_name))
            "model" (optStr module.model))
          "serial" (optStr module.serial))
        "id_path" (optStr module.id_path) := by
    simp only [data_for_update_block_device]
    rw [if_neg h]
  constructor <;> intro hmem <;> rw [hred] at hmem <;>
    rcases keys_identity_diff hmem with hm | hm | hm | hm <;> simp at hm

/-- C3 scenario: declaration renaming vdb to vdc, changing the block size to
1024 and growing the device to 100 GB, all differing from the actual state. -/
def c3_module : Params :=
  ⟨StateParam.present, "m1", "vdb", some "vdc", some 1024, some 100, none,
    none, none, none, none, none⟩

/-- C3 scenario: the actual device (27 GB, block size 512). -/
def c3_device : BlockDevice := ⟨73, "vdb", "", "", "", 512, 27, []⟩

/-- C3 witness: on a deployed (not ready) machine, neither size nor
block_size enters the diff even though both differ. -/
theorem C3_size_keys_require_ready_status_witness :
    "size" ∉ (data_for_update_block_device c3_module c3_device
      deployedMachine).map Prod.fst ∧
    "block_size" ∉ (data_for_update_block_device c3_module c3_device
      deployedMachine).map Prod.fst :=
  C3_size_keys_require_ready_status c3_module c3_device deployedMachine
    (by decide)

/-- Shape of any call issued by one partition iteration: partition create,
format, mount, or an add-tag, all carrying the iteration index. -/
lemma mem_partition_steps {c : Call} {i : Nat} {p : PartitionParams}
    (h : c ∈ partition_steps i p) :
    c = Call.partitionCreate i (data_for_create_partition p) ∨
    c = Call.partitionFormat i (formatData p) ∨
    c = Call.partitionMount i (mountData p) ∨
    ∃ t, Call.partitionAddTag i t = c := by
  unfold partition_steps at h
  by_cases hf : truthyStr p.fs_type = true <;>
    by_cases hm : truthyStr p.mount_point = true <;>
    by_cases ht : truthyList p.tags = true <;>
    simp [hf, hm, ht] at h <;>
    tauto

/-- A mount call inside one partition iteration forces the matching index,
the mount payload, and the truthiness of fs_type and mount_point. -/
lemma mount_in_steps_inv {i j : Nat} {d : Dict} {p : PartitionParams}
    (h : Call.partitionMount i d ∈ partition_steps j p) :
    i = j ∧ d = mountData p ∧ truthyStr p.fs_type = true ∧
      truthyStr p.mount_point = true := by
  unfold partition_steps at h
  by_cases hf : truthyStr p.fs_type = true <;>
    by_cases hm : truthyStr p.mount_point = true <;>
    by_cases ht : truthyList p.tags = true <;>
    simp [hf, hm, ht] at h <;>
    exact ⟨h.1, h.2, hf, hm⟩

/-- The partition index attached to any partition call of one iteration is
the iteration index. -/
lemma callKey_fst_of_mem_steps {x : Nat × Nat} {i : Nat} {p : PartitionParams}
    (h : x ∈ (partition_steps i p).filterMap callKey) : x.1 = i := by
  rcases List.mem_filterMap.mp h with ⟨c, hc, hk⟩
  rcases mem_partition_steps hc with h1 | h1 | h1 | ⟨t, h1⟩ <;> subst h1 <;>
    simp only [callKey, Option.some.injEq] at hk <;> rw [← hk]

/-- Format then mount, in that order, occur as a subsequence of one partition
iteration when both fs_type and mount_point are declared. -/
lemma format_mount_sublist (i : Nat) (p : PartitionParams)
    (hf : truthyStr p.fs_type = true) (hm : truthyStr p.mount_point = true) :
    [Call.partitionFormat i (formatData p),
      Call.partitionMount i (mountData p)].Sublist (partition_steps i p) := by
  unfold partition_steps
  rw [if_pos hf, if_pos hm]
  have h1 : [Call.partitionFormat i (formatData p),
      Call.partitionMount i (mountData p)].Sublist
        ([Call.partitionCreate i (data_for_create_partition p)] ++
          ([Call.partitionFormat i (formatData p)] ++
            [Call.partitionMount i (mountData p)])) :=
    List.sublist_append_right _ _
  exact h1.trans (List.sublist_append_left _ _)

/-- Any call of the partition loop belongs to some declared partition's
iteration, at the iteration matching its declaration position. -/
lemma mem_create_partition_go {c : Call} :
    ∀ (ps : List PartitionParams) (n : Nat), c ∈ create_partition_go n ps →
      ∃ j p, ps[j]? = some p ∧ c ∈ partition_steps (n + j) p := by
  intro ps
  induction ps with
  | nil => intro n h; simp [create_partition_go] at h
  | cons q qs ih =>
      intro n h
      unfold create_partition_go at h
      rcases List.mem_append.mp h with h1 | h1
      · exact ⟨0, q, by simp, by simpa using h1⟩
      · rcases ih (n + 1) h1 with ⟨j, p, hj, hc⟩
        refine ⟨j + 1, p, by simpa using hj, ?_⟩
        have harith : n + 1 + j = n + (j + 1) := by omega
        rwa [harith] at hc

/-- The iteration of the partition declared at position `j` is a subsequence
of the whole partition loop. -/
lemma steps_sublist_create_partition_go :
    ∀ (ps : List PartitionParams) (n j : Nat) (p : PartitionParams),
      ps[j]? = some p →
        (partition_steps (n + j) p).Sublist (create_partition_go n ps) := by
  intro ps
  induction ps with
  | nil => intro n j p hj; simp at hj
  | cons q qs ih =>
      intro n j p hj
      cases j with
      | zero =>
          have hqp : q = p := by simpa using hj
          subst hqp
          unfold create_partition_go
          exact List.sublist_append_left (partition_steps n q)
            (create_partition_go (n + 1) qs)
      | succ j =>
          have hj2 : qs[j]? = some p := by simp at hj; exact hj
          have hs := ih (n + 1) j p hj2
          have harith : n + 1 + j = n + (j + 1) := by omega
          rw [harith] at hs
          unfold create_partition_go
          exact hs.trans (List.sublist_append_right _ _)

/-- Membership transfer from one iteration into the whole partition loop. -/
lemma mem_go_of_mem_steps {c : Call} (ps : List PartitionParams) (n j : Nat)
    (p : PartitionParams) (hj : ps[j]? = some p)
    (hc : c ∈ partition_steps (n + j) p) : c ∈ create_partition_go n ps :=
  (steps_sublist_create_partition_go ps n j p hj).subset hc

/-- A declared partitions list with an entry at some position is truthy. -/
lemma truthyList_of_get {α : Type} {o : Option (List α)} {i : Nat} {p : α}
    (h : (o.getD [])[i]? = some p) : truthyList o = true := by
  cases o with
  | none => simp at h
  | some l =>
      cases l with
      | nil => simp at h
      | cons a as => rfl

/-- A declared list with a member is truthy. -/
lemma truthyList_of_mem {α : Type} {o : Option (List α)} {t : α}
    (h : t ∈ o.getD []) : truthyList o = true := by
  cases o with
  | none => simp at h
  | some l =>
      cases l with
      | nil => simp at h
      | cons a as => rfl

/-- The create-path trace, split into its four segments. -/
lemma create_trace_shape (module : Params) (env : Env) :
    (create_block_device module env).1 =
      [Call.deviceCreate (data_for_create_block_device module)] ++
        (if truthyList module.partitions then create_partition module else []) ++
        (if truthyList module.tags then
          (module.tags.getD []).map Call.deviceAddTag else []) ++
        (if truthyBool module.is_boot_device then [Call.setBootDisk] else []) :=
  rfl

/-- Membership transfer from the partition loop into the create-path trace. -/
lemma mem_create_trace_of_mem_cp {x : Call} (module : Params) (env : Env)
    (hp : truthyList module.partitions = true)
    (hx : x ∈ create_partition module) :
    x ∈ (create_block_device module env).1 := by
  rw [create_trace_shape, if_pos hp]
  exact List.mem_append_left _ (List.mem_append_left _ (List.mem_append_right _ hx))

/-- Subsequence transfer from the partition loop into the create-path trace. -/
lemma sublist_create_trace_of_sublist_cp {s : List Call} (module : Params)
    (env : Env) (hp : truthyList module.partitions = true)
    (hs : s.Sublist (create_partition module)) :
    s.Sublist (create_block_device module env).1 := by
  rw [create_trace_shape, if_pos hp]
  exact ((hs.trans (List.sublist_append_right _ _)).trans
    (List.sublist_append_left _ _)).trans (List.sublist_append_left _ _)

/-- C6: a mount call is only ever issued for a partition whose declaration
supplies fs_type (a declaration with a mount_point but no fs_type never
triggers one), and the format call of the same partition precedes it in the
trace of the run. -/
theorem C6_mount_requires_format (module : Params) (env : Env) (i : Nat)
    (d : Dict) (h : Call.partitionMount i d ∈ (run module env).1) :
    ∃ p, (module.partitions.getD [])[i]? = some p ∧
      truthyStr p.fs_type = true ∧
      [Call.partitionFormat i (formatData p),
        Call.partitionMount i d].Sublist (run module env).1 := by
  cases hst : module.state with
  | absent =>
      exfalso
      cases hf : env.found <;> simp [run, hst, delete_block_device, hf] at h
  | present =>
      cases hf : env.found with
      | some bd =>
          exfalso
          simp [run, hst, hf, update_block_device] at h
      | none =>
          have hrun : run module env =
              ((create_block_device module env).1,
                Except.ok (create_block_device module env).2) := by
            simp [run, hst, hf]
          rw [hrun] at h
          rw [show ((create_block_device module env).1,
              Except.ok (create_block_device module env).2).1 =
              (create_block_device module env).1 from rfl,
            create_trace_shape] at h
          have hcp : Call.partitionMount i d ∈ create_partition module := by
            rcases List.mem_append.mp h with h1 | h1
            · rcases List.mem_append.mp h1 with h2 | h2
              · rcases List.mem_append.mp h2 with h3 | h3
                · simp at h3
                · split_ifs at h3 with hp
                  · exact h3
                  · simp at h3
              · exfalso
                split_ifs at h2 <;> simp at h2
            · exfalso
              split_ifs at h1 <;> simp at h1
          have hcp2 : Call.partitionMount i d ∈
              create_partition_go 0 (module.partitions.getD []) := hcp
          rcases mem_create_partition_go _ 0 hcp2 with ⟨j, p, hj, hc⟩
          rw [Nat.zero_add] at hc
          rcases mount_in_steps_inv hc with ⟨hij, hd, hfs, hmp⟩
          subst hij
          refine ⟨p, hj, hfs, ?_⟩
          rw [hrun]
          have hp : truthyList module.partitions = true := truthyList_of_get hj
          have hs1 : [Call.partitionFormat i (formatData p),
              Call.partitionMount i d].Sublist (partition_steps i p) := by
            rw [hd]
            exact format_mount_sublist i p hfs hmp
          have hs2 := steps_sublist_create_partition_go
            (module.partitions.getD []) 0 i p hj
          rw [Nat.zero_add] at hs2
          exact sublist_create_trace_of_sublist_cp module env hp (hs1.trans hs2)

/-- C6 scenario: a partition declared with size, fs_type, label and mount
point. -/
def c6_partition : PartitionParams :=
  ⟨some 10, none, none, some "ext4", some "media", some "/media", none⟩

/-- C6 scenario: create path with that one partition. -/
def c6_module : Params :=
  ⟨StateParam.present, "m1", "vdb", none, none, some 27, none,
    none, none, none, none, some [c6_partition]⟩

/-- C6 scenario: no device named vdb exists yet. -/
def c6_env : Env := ⟨readyMachine, none, [], []⟩

/-- C6 witness: the issued mount call for the example partition is preceded
by its format call. -/
theorem C6_mount_requires_format_witness :
    [Call.partitionFormat 0 (formatData c6_partition),
      Call.partitionMount 0 (mountData c6_partition)].Sublist
        (run c6_module c6_env).1 := by
  obtain ⟨p, hp, hfs, hs⟩ := C6_mount_requires_format c6_module c6_env 0
    (mountData c6_partition) (by decide)
  have hpe : c6_partition = p := by simpa [c6_module] using hp
  rw [← hpe] at hs
  exact hs

/-- A reflexive relation holds pairwise on any replicated list. -/
lemma pairwise_replicate_of_rel {α : Type} {R : α → α → Prop} {a : α}
    (h : R a a) : ∀ n : Nat, (List.replicate n a).Pairwise R := by
  intro n
  induction n with
  | zero => exact List.Pairwise.nil
  | succ n ih =>
      rw [List.replicate_succ]
      refine List.Pairwise.cons ?_ ih
      intro b hb
      rw [List.eq_of_mem_replicate hb]
      exact h

/-- The keys of the tag segment of one partition iteration: one (i, 3) per
declared tag. -/
lemma filterMap_callKey_tags (i : Nat) (ts : List String) :
    (ts.map (Call.partitionAddTag i)).filterMap callKey =
      List.replicate ts.length (i, 3) := by
  induction ts with
  | nil => rfl
  | cons t ts ih => simp [callKey, ih, List.replicate_succ]

/-- Device tag additions carry no partition key. -/
lemma filterMap_callKey_devtags (ts : List String) :
    (ts.map Call.deviceAddTag).filterMap callKey = [] := by
  induction ts with
  | nil => rfl
  | cons t ts ih => simp [callKey, ih]

/-- Phase keys bounded by 3 and sharing an index stay ordered when a block of
(i, 3) tag keys is appended. -/
lemma pairwise_keyLE_append_tags (i : Nat) (xs : List (Nat × Nat)) (n : Nat)
    (hxs : List.Pairwise keyLE xs) (hb : ∀ x ∈ xs, x.1 = i ∧ x.2 ≤ 3) :
    List.Pairwise keyLE (xs ++ List.replicate n (i, 3)) := by
  rw [List.pairwise_append]
  refine ⟨hxs, pairwise_replicate_of_rel
    (show keyLE (i, 3) (i, 3) from Or.inr ⟨rfl, Nat.le_refl 3⟩) n, ?_⟩
  intro a ha b hb2
  rw [List.eq_of_mem_replicate hb2]
  exact Or.inr ⟨(hb a ha).1, (hb a ha).2⟩

/-- The partition keys of one iteration are ordered by phase. -/
lemma pairwise_keys_partition_steps (i : Nat) (p : PartitionParams) :
    List.Pairwise keyLE ((partition_steps i p).filterMap callKey) := by
  unfold partition_steps
  by_cases hf : truthyStr p.fs_type = true <;>
    by_cases hm : truthyStr p.mount_point = true <;>
    by_cases ht : truthyList p.tags = true <;>
    simp only [hf, hm, ht, if_true, if_false, List.filterMap_append,
      List.filterMap_cons, List.filterMap_nil, callKey, filterMap_callKey_tags,
      List.nil_append, List.append_nil, List.singleton_append,
      List.cons_append] <;>
  first
    | exact pairwise_keyLE_append_tags i [(i, 0), (i, 1), (i, 2)]
        ((p.tags.getD []).length) (by simp [keyLE]) (by simp)
    | exact pairwise_keyLE_append_tags i [(i, 0), (i, 1), (i, 2)] 0
        (by simp [keyLE]) (by simp)
    | exact pairwise_keyLE_append_tags i [(i, 0), (i, 1)]
        ((p.tags.getD []).length) (by simp [keyLE]) (by simp)
    | exact pairwise_keyLE_append_tags i [(i, 0), (i, 1)] 0
        (by simp [keyLE]) (by simp)
    | exact pairwise_keyLE_append_tags i [(i, 0)]
        ((p.tags.getD []).length) (by simp [keyLE]) (by simp)
    | exact pairwise_keyLE_append_tags i [(i, 0)] 0
        (by simp [keyLE]) (by simp)

/-- Every partition key of the loop started at `n` has index at least `n`. -/
lemma callKey_fst_ge_of_mem_go {x : Nat × Nat} :
    ∀ (ps : List PartitionParams) (n : Nat),
      x ∈ (create_partition_go n ps).filterMap callKey → n ≤ x.1 := by
  intro ps
  induction ps with
  | nil => intro n h; simp [create_partition_go] at h
  | cons q qs ih =>
      intro n h
      unfold create_partition_go at h
      rw [List.filterMap_append] at h
      rcases List.mem_append.mp h with h1 | h1
      · have := callKey_fst_of_mem_steps h1
        omega
      · have := ih (n + 1) h1
        omega

/-- The partition keys of the whole loop are ordered: by declaration
position, then by phase within one partition. -/
lemma pairwise_keys_go :
    ∀ (ps : List PartitionParams) (n : Nat),
      List.Pairwise keyLE ((create_partition_go n ps).filterMap callKey) := by
  intro ps
  induction ps with
  | nil => intro n; simp [create_partition_go]
  | cons q qs ih =>
      intro n
      unfold create_partition_go
      rw [List.filterMap_append, List.pairwise_append]
      refine ⟨pairwise_keys_partition_steps n q, ih (n + 1), ?_⟩
      intro a ha b hb
      have ha1 := callKey_fst_of_mem_steps ha
      have hb1 := callKey_fst_ge_of_mem_go qs (n + 1) hb
      left
      omega

/-- The partition keys of the create-path trace are those of the partition
loop. -/
lemma filterMap_callKey_create_trace (module : Params) (env : Env) :
    ((create_block_device module env).1).filterMap callKey =
      (if truthyList module.partitions then create_partition module
        else []).filterMap callKey := by
  rw [create_trace_shape, List.filterMap_append, List.filterMap_append,
    List.filterMap_append]
  have h1 : List.filterMap callKey
      [Call.deviceCreate (data_for_create_block_device module)] = [] := rfl
  have h2 : (if truthyList module.tags then
      (module.tags.getD []).map Call.deviceAddTag else []).filterMap callKey
      = [] := by
    split_ifs
    · exact filterMap_callKey_devtags _
    · rfl
  have h3 : (if truthyBool module.is_boot_device then [Call.setBootDisk]
      else []).filterMap callKey = [] := by
    split_ifs <;> rfl
  rw [h1, h2, h3]
  simp

/-- The create call of one partition iteration. -/
lemma create_mem_partition_steps (i : Nat) (p : PartitionParams) :
    Call.partitionCreate i (data_for_create_partition p) ∈
      partition_steps i p := by
  simp [partition_steps]

/-- The format call of one partition iteration, when fs_type is declared. -/
lemma format_mem_partition_steps (i : Nat) (p : PartitionParams)
    (hf : truthyStr p.fs_type = true) :
    Call.partitionFormat i (formatData p) ∈ partition_steps i p := by
  simp [partition_steps, hf]

/-- The mount call of one partition iteration, when fs_type and mount_point
are declared. -/
lemma mount_mem_partition_steps (i : Nat) (p : PartitionParams)
    (hf : truthyStr p.fs_type = true) (hm : truthyStr p.mount_point = true) :
    Call.partitionMount i (mountData p) ∈ partition_steps i p := by
  simp [partition_steps, hf, hm]

/-- The add-tag call of one partition iteration, for each declared tag. -/
lemma tag_mem_partition_steps (i : Nat) (p : PartitionParams) (t : String)
    (ht : t ∈ p.tags.getD []) :
    Call.partitionAddTag i t ∈ partition_steps i p := by
  have htr := truthyList_of_mem ht
  unfold partition_steps
  apply List.mem_append_right
  rw [if_pos htr]
  exact List.mem_map_of_mem _ ht

/-- Membership of one iteration call in the create-path trace, given the
declaration position of its partition. -/
lemma mem_create_trace_of_mem_steps {c : Call} (module : Params) (env : Env)
    {i : Nat} {p : PartitionParams}
    (hip : (module.partitions.getD [])[i]? = some p)
    (hc : c ∈ partition_steps i p) :
    c ∈ (create_block_device module env).1 := by
  have hp := truthyList_of_get hip
  have hc2 : c ∈ partition_steps (0 + i) p := by rwa [Nat.zero_add]
  exact mem_create_trace_of_mem_cp module env hp
    (mem_go_of_mem_steps (module.partitions.getD []) 0 i p hip hc2)

/-- C7: on the create path the partition-related calls are ordered by
declaration position and, within one partition, by the fixed phase order
create, format, mount, tag; and each declared partition contributes its
create call, its format call when fs_type is declared, its mount call when
fs_type and mount_point are declared, and one add-tag call per declared
tag. -/
theorem C7_create_path_partition_order (module : Params) (env : Env)
    (h1 : module.state = StateParam.present) (h2 : env.found = none) :
    List.Pairwise keyLE (((run module env).1).filterMap callKey) ∧
    (∀ i p, (module.partitions.getD [])[i]? = some p →
      Call.partitionCreate i (data_for_create_partition p) ∈
        (run module env).1 ∧
      (truthyStr p.fs_type = true →
        Call.partitionFormat i (formatData p) ∈ (run module env).1) ∧
      (truthyStr p.fs_type = true → truthyStr p.mount_point = true →
        Call.partitionMount i (mountData p) ∈ (run module env).1) ∧
      (∀ t ∈ p.tags.getD [],
        Call.partitionAddTag i t ∈ (run module env).1)) := by
  have hrun : run module env =
      ((create_block_device module env).1,
        Except.ok (create_block_device module env).2) := by
    simp [run, h1, h2]
  constructor
  · rw [hrun]
    rw [show (((create_block_device module env).1,
        Except.ok (create_block_device module env).2)).1 =
        (create_block_device module env).1 from rfl]
    rw [filterMap_callKey_create_trace]
    split_ifs with hp
    · exact pairwise_keys_go _ 0
    · simp
  · intro i p hip
    refine ⟨?_, fun hf => ?_, fun hf hm => ?_, fun t ht => ?_⟩ <;> rw [hrun]
    · exact mem_create_trace_of_mem_steps module env hip
        (create_mem_partition_steps i p)
    · exact mem_create_trace_of_mem_steps module env hip
        (format_mem_partition_steps i p hf)
    · exact mem_create_trace_of_mem_steps module env hip
        (mount_mem_partition_steps i p hf hm)
    · exact mem_create_trace_of_mem_steps module env hip
        (tag_mem_partition_steps i p t ht)

/-- C7 scenario: a partition with size, tag, fs_type and mount point (the
second partition of the module example). -/
def c7_partition : PartitionParams :=
  ⟨some 15, some false, some ["my_partition"], some "ext4", none,
    some "/storage", none⟩

/-- C7 scenario: create path declaring that partition. -/
def c7_module : Params :=
  ⟨StateParam.present, "m1", "vdb", none, none, some 27, none,
    none, none, none, none, some [c7_partition]⟩

/-- C7 scenario: no device named vdb exists yet. -/
def c7_env : Env := ⟨readyMachine, none, [], []⟩

/-- C7 witness: the declared tag of the example partition is added on the
create path. -/
theorem C7_create_path_partition_order_witness :
    Call.partitionAddTag 0 "my_partition" ∈ (run c7_module c7_env).1 := by
  have hx := (C7_create_path_partition_order c7_module c7_env rfl rfl).2 0
    c7_partition (by simp [c7_module])
  exact hx.2.2.2 "my_partition" (by simp [c7_partition])
